import Mathlib

/-!
Verification development for the gphoto2 websocket middleware system.

The repository has two programs:
* `src/gphoto2-websocket-server.py` — the device-side (Pi) server exposing the
  camera and lights (`GPhoto2API`, `ConnectionManager`);
* `src/services/middleware_server.py` — the middleware/proxy layer
  (`PiWebSocketClient`, `run_photometric_sequence_mw`,
  `websocket_endpoint_middleware`).

This file gives a shallow embedding of the parts of both programs that the
verified properties are about: Python `os.path` semantics as used by the
path-safety checks, the pending-request correlation map of
`PiWebSocketClient`, the live-view frame routing, the photometric sequence
engines of both tiers, and the per-message response dispatch of both
websocket endpoints.  Effects on the outside world (device commands, frames
delivered, responses sent) are recorded as explicit event lists; outcomes of
awaited device calls are supplied by oracle parameters.
-/

namespace GPhotoWS

/-! ## Python `os.path` semantics (POSIX), on lists of characters

The path-safety checks in both servers are built from `os.path.abspath`,
`os.path.normpath`, `os.path.join`, `os.path.isabs`, `str.startswith`,
`str.split` and substring tests.  These library functions are modelled here
over `List Char` (so that all computations are kernel-reducible), for POSIX
separators (`os.path.sep = "/"`), for a current working directory that is an
absolute path without a trailing slash, and without symlink resolution
(`normpath`/`abspath` in Python are purely textual as well). -/

/-- Python `str.split(sep)` for a single-character separator: splits into the
(possibly empty) chunks between occurrences of `sep`.  `"".split` gives
`[""]`, and leading/trailing separators give empty chunks, as in Python. -/
def pySplit (sep : Char) : List Char → List (List Char)
  | [] => [[]]
  | c :: rest =>
    let r := pySplit sep rest
    if c = sep then [] :: r
    else
      match r with
      | [] => [[c]]
      | h :: t => (c :: h) :: t

/-- Python `os.path.isabs` on POSIX: the path begins with a slash. -/
def isabsL : List Char → Bool
  | '/' :: _ => true
  | _ => false

/-- Python `os.path.join(a, b)` for the uses in this repository: if `b` is
absolute it replaces `a`, otherwise the two are joined with a single slash
(`a` never ends in a slash at the call sites modelled here). -/
def pathJoinL (a b : List Char) : List Char :=
  if isabsL b then b else a ++ '/' :: b

/-- Component processing of Python `os.path.normpath`: drop empty and `"."`
components, and let `".."` pop the previous component (except that leading
`".."` is kept on relative paths and dropped at the root of absolute
paths). -/
def normStack (absFlag : Bool) : List (List Char) → List (List Char) → List (List Char)
  | stack, [] => stack.reverse
  | stack, c :: rest =>
    if c = [] ∨ c = ['.'] then normStack absFlag stack rest
    else if c = ['.', '.'] then
      match stack with
      | [] =>
        if absFlag then normStack absFlag [] rest
        else normStack absFlag [['.', '.']] rest
      | top :: pop =>
        if top = ['.', '.'] then normStack absFlag (['.', '.'] :: top :: pop) rest
        else normStack absFlag pop rest
    else normStack absFlag (c :: stack) rest

/-- Intercalate a separator character between path components. -/
def interJoin (sep : Char) : List (List Char) → List Char
  | [] => []
  | [c] => c
  | c :: cs :: rest => c ++ sep :: interJoin sep (cs :: rest)

/-- Python `os.path.normpath` on POSIX: collapse empty and `"."` components
and resolve `".."` textually, keeping the leading slash of absolute paths and
returning `"."` for an empty relative result. -/
def normpathL (p : List Char) : List Char :=
  let absFlag := isabsL p
  let segs := normStack absFlag [] (pySplit '/' p)
  if absFlag then '/' :: interJoin '/' segs
  else if segs = [] then ['.'] else interJoin '/' segs

/-- Python `os.path.abspath(p)` relative to an explicit current working
directory `cwd`: `normpath(join(cwd, p))`. -/
def abspathL (cwd p : List Char) : List Char :=
  normpathL (pathJoinL cwd p)

/-- Python `pat in s` (substring test) for a non-empty pattern. -/
def containsSubL (pat : List Char) : List Char → Bool
  | [] => pat.isEmpty
  | c :: rest => pat.isPrefixOf (c :: rest) || containsSubL pat rest

/-- `_is_path_safe_mw(allowed_base_dir, user_provided_path_segment)` from
`src/services/middleware_server.py` (lines 99-133), with the process working
directory made explicit.  It resolves the base and the joined path, then
rejects when the resolved path does not start (as a string) with the base,
when the user segment is absolute, or when the user segment contains a `".."`
component (`".." in user_provided_path_segment.split(os.path.sep)`). -/
def _is_path_safe_mw (cwd allowed_base_dir user_provided_path_segment : String) : Bool :=
  let abs_base_dir := abspathL cwd.toList allowed_base_dir.toList
  let combined_path := pathJoinL abs_base_dir user_provided_path_segment.toList
  let abs_resolved_path := normpathL combined_path
  if ¬ abs_base_dir.isPrefixOf abs_resolved_path then false
  else if isabsL user_provided_path_segment.toList then false
  else if (pySplit '/' user_provided_path_segment.toList).any (fun c => decide (c = ['.', '.'])) then false
  else true

/-- `GPhoto2API._is_path_safe(base_dir, user_provided_path_segment)` from
`src/gphoto2-websocket-server.py` (lines 143-157): rejects when the segment
contains `".."`, `"/"` or `"\"` as a substring, then checks that the
normalized joined path still starts (as a string) with the absolute base. -/
def _is_path_safe (cwd base_dir user_provided_path_segment : String) : Bool :=
  let seg := user_provided_path_segment.toList
  if containsSubL ['.', '.'] seg || containsSubL ['/'] seg || containsSubL ['\\'] seg then false
  else
    let full_path := normpathL (pathJoinL base_dir.toList seg)
    if ¬ (abspathL cwd.toList base_dir.toList).isPrefixOf (abspathL cwd.toList full_path) then false
    else true

/-- `CAPTURES_BASE_DIR` of the Pi server. -/
def CAPTURES_BASE_DIR : String := "captures"

/-- The path-resolution and access-control logic of
`GPhoto2API.get_image_data` in `src/gphoto2-websocket-server.py`
(lines 568-586): normalize the user path, make it absolute, require that it
starts (as a string) with the absolute captures base and that the normalized
path has no `".."` substring; on success the server opens and returns exactly
the file at the resolved absolute path (the existence check and file read are
not modelled — the returned value is the path that would be read). -/
def get_image_data_resolved (cwd image_path : String) : Option String :=
  let normalized_image_path := normpathL image_path.toList
  let absolute_image_path := abspathL cwd.toList normalized_image_path
  let absolute_captures_base := abspathL cwd.toList CAPTURES_BASE_DIR.toList
  if ¬ absolute_captures_base.isPrefixOf absolute_image_path then none
  else if containsSubL ['.', '.'] normalized_image_path then none
  else some absolute_image_path.asString

/-- A path `p` lies within directory `base` when it is `base` itself or a
proper descendant, i.e. `base ++ "/"` is a path-component-respecting prefix
of `p`.  (This is the intended containment notion that the `startswith`
checks in the source are meant to approximate.) -/
def withinDir (base p : String) : Bool :=
  decide (base = p) || (base.toList ++ ['/']).isPrefixOf p.toList

/-! ## `PiWebSocketClient` — the DeviceLink / RequestCorrelator / StreamRouter

`src/services/middleware_server.py` lines 137-289.  The client owns one
downstream websocket, a dict `pi_command_responses : id → Future` of pending
requests, the single live-view subscriber slot and the single active
photometric-run slot.  Futures are modelled by keeping the list of pending
ids (`pi_command_responses`) together with a log `resolved` of completed
futures; frontend websockets are opaque `Nat` handles.  Messages handed to
the generic `pi_message_listeners` are recorded in `listener_log`.
`connect_attempts` counts entries into the actual connection attempt of
`connect_to_pi` (the branch taken when neither connected nor already
connecting). -/

/-- A JSON message received from the Pi server, with the fields the
middleware dispatch inspects: `action`, `request_id` and `success`. -/
structure PiMessage where
  action : Option String
  request_id : Option String
  success : Bool
deriving DecidableEq, Repr

/-- Completion of a pending-request future: either a Pi response message
(`future.set_result`) or a `ConnectionError` (`future.set_exception`). -/
inductive FutureOutcome where
  | value : PiMessage → FutureOutcome
  | connError : String → FutureOutcome
deriving DecidableEq, Repr

/-- The mutable state of `PiWebSocketClient` (constructor lines 138-155),
restricted to the fields the verified properties are about. -/
structure PiClientState where
  is_connected_to_pi : Bool
  is_connecting_to_pi : Bool
  pi_command_responses : List String
  resolved : List (String × FutureOutcome)
  listener_log : List PiMessage
  frontend_liveview_websocket : Option Nat
  frontend_liveview_request_id : Option String
  active_photometric_frontend_ws : Option Nat
  active_photometric_request_id_frontend : Option String
  active_photometric_set_folder_mw : Option String
  active_photometric_captured_images_mw : List String
  connect_attempts : Nat
deriving DecidableEq, Repr

/-- `clear_frontend_liveview_state` (lines 283-284). -/
def clear_frontend_liveview_state (st : PiClientState) : PiClientState :=
  { st with frontend_liveview_websocket := none, frontend_liveview_request_id := none }

/-- `clear_active_photometric_state` (lines 285-289). -/
def clear_active_photometric_state (st : PiClientState) : PiClientState :=
  { st with
    active_photometric_frontend_ws := none
    active_photometric_request_id_frontend := none
    active_photometric_set_folder_mw := none
    active_photometric_captured_images_mw := [] }

/-- `connect_to_pi` (lines 159-177): returns true at once when already
connected; returns false without a new attempt when an attempt is already in
flight; otherwise performs one bounded connection attempt whose success is
the oracle `attempt_succeeds` — on failure it stays disconnected and clears
both the live-view and the photometric slots. -/
def connect_to_pi (st : PiClientState) (attempt_succeeds : Bool) : PiClientState × Bool :=
  if st.is_connected_to_pi then (st, true)
  else if st.is_connecting_to_pi then (st, false)
  else
    let st1 := { st with connect_attempts := st.connect_attempts + 1 }
    if attempt_succeeds then ({ st1 with is_connected_to_pi := true }, true)
    else
      (clear_active_photometric_state (clear_frontend_liveview_state
        { st1 with is_connected_to_pi := false }), false)

/-- The resolve step of the correlation map (read loop lines 223-226): if
`rid` is a pending id, pop it from `pi_command_responses` and complete its
future with the message, returning true; otherwise change nothing and
return false. -/
def resolve (st : PiClientState) (rid : String) (m : PiMessage) : PiClientState × Bool :=
  if rid ∈ st.pi_command_responses then
    ({ st with
        pi_command_responses := st.pi_command_responses.filter (fun k => decide (k ≠ rid))
        resolved := st.resolved ++ [(rid, FutureOutcome.value m)] }, true)
  else (st, false)

/-- `_forward_liveview_frame` (lines 178-191): when a live-view subscriber is
attached, deliver the frame to it (the delivered pair is the second
component); a delivery failure (oracle `delivery_ok = false`) clears the
subscriber slot.  When no subscriber is attached the frame is dropped: the
state is returned unchanged (there is no queue or buffer field) and nothing
is delivered. -/
def _forward_liveview_frame (st : PiClientState) (m : PiMessage) (delivery_ok : Bool) :
    PiClientState × Option (Nat × PiMessage) :=
  match st.frontend_liveview_websocket with
  | some ws =>
    if delivery_ok then (st, some (ws, m))
    else (clear_frontend_liveview_state st, none)
  | none => (st, none)

/-- `_handle_image_data_from_pi` (lines 192-209), reduced to its state
effect: when a photometric context is active, append the saved image's
relative path to `active_photometric_captured_images_mw`. -/
def _handle_image_data_from_pi (st : PiClientState) (saved_path : String) : PiClientState :=
  match st.active_photometric_frontend_ws, st.active_photometric_set_folder_mw with
  | some _, some _ =>
    { st with active_photometric_captured_images_mw :=
        st.active_photometric_captured_images_mw ++ [saved_path] }
  | _, _ => st

/-- One iteration of the `_listen_to_pi` read loop (lines 214-231) on a
decoded message: image-data messages go to `_handle_image_data_from_pi`,
live-view frames to `_forward_liveview_frame`, a truthy `request_id` known to
the pending map resolves that pending request (the returned Bool), and
anything else is handed to the generic listener list. -/
def listen_dispatch (st : PiClientState) (m : PiMessage) (delivery_ok : Bool)
    (saved_path : String) : PiClientState × Bool :=
  if m.action = some "IMAGE_DATA_FROM_PI" then (_handle_image_data_from_pi st saved_path, false)
  else if m.action = some "liveview_frame" then ((_forward_liveview_frame st m delivery_ok).1, false)
  else
    match m.request_id with
    | none => ({ st with listener_log := st.listener_log ++ [m] }, false)
    | some rid =>
      if rid = "" then ({ st with listener_log := st.listener_log ++ [m] }, false)
      else
        let p := resolve st rid m
        if p.2 then (p.1, true)
        else ({ p.1 with listener_log := p.1.listener_log ++ [m] }, false)

/-- The `finally` block of `_listen_to_pi` (lines 236-246), run when the read
loop terminates because the downstream connection is lost: mark disconnected,
clear the live-view and photometric slots, and complete every still-pending
future with a `ConnectionError`, emptying the pending map.  (The reconnect
scheduled afterwards is a separate task and not part of this transition.) -/
def listen_finally (st : PiClientState) : PiClientState :=
  let st1 := clear_active_photometric_state (clear_frontend_liveview_state
    { st with is_connected_to_pi := false })
  { st1 with
    pi_command_responses := []
    resolved := st1.resolved ++ st1.pi_command_responses.map
      (fun rid => (rid, FutureOutcome.connError "Connection to Pi server lost.")) }

/-- The outcome of awaiting a sent request's future in `send_to_pi`:
the response arrives, the wait times out, or the connection closes. -/
inductive SendOutcome where
  | response : PiMessage → SendOutcome
  | timeout : SendOutcome
  | connectionClosed : SendOutcome
deriving DecidableEq, Repr

/-- The failure dict `send_to_pi` builds locally:
`{"success": False, "error": ..., "request_id": original_request_id,
"action": action}`. -/
structure LocalErrorEnvelope where
  success : Bool
  error : String
  request_id : Option String
  action : String
deriving DecidableEq, Repr

/-- The value returned by `send_to_pi`: either the Pi's own response message
or a locally built failure envelope. -/
inductive SendResult where
  | piResponse : PiMessage → SendResult
  | localError : LocalErrorEnvelope → SendResult
deriving DecidableEq, Repr

/-- `pi_response.get("success")` on a `send_to_pi` result. -/
def sendResultSuccess : SendResult → Bool
  | SendResult.piResponse m => m.success
  | SendResult.localError e => e.success

/-- `pi_response.get("error")` on a `send_to_pi` result (the error text of Pi
responses themselves is not modelled). -/
def sendResultError : SendResult → Option String
  | SendResult.piResponse _ => none
  | SendResult.localError e => some e.error

/-- The connected part of `send_to_pi` (lines 251-267): generate a fresh id
`pi_request_id`, register its future in the pending map, write the framed
request and await the result.  On a response, the read loop has resolved the
future (popping the id); on timeout or connection loss, pop the entry and
return the corresponding local failure envelope tagged with the action and
carrying the caller's original request id. -/
def send_await (st : PiClientState) (action : String) (original_request_id : Option String)
    (pi_request_id : String) (outcome : SendOutcome) : PiClientState × SendResult :=
  let st1 := { st with pi_command_responses := st.pi_command_responses ++ [pi_request_id] }
  match outcome with
  | SendOutcome.response m =>
    let p := resolve st1 pi_request_id m
    (p.1, SendResult.piResponse m)
  | SendOutcome.timeout =>
    ({ st1 with pi_command_responses :=
        st1.pi_command_responses.filter (fun k => decide (k ≠ pi_request_id)) },
     SendResult.localError
       { success := false, error := "Timeout for Pi action " ++ action ++ "."
         request_id := original_request_id, action := action })
  | SendOutcome.connectionClosed =>
    ({ st1 with pi_command_responses :=
        st1.pi_command_responses.filter (fun k => decide (k ≠ pi_request_id)) },
     SendResult.localError
       { success := false, error := "Connection to Pi lost for " ++ action ++ "."
         request_id := original_request_id, action := action })

/-- `send_to_pi` (lines 247-267): when not connected, attempt `connect_to_pi`
once; if still not connected, return a connection failure envelope carrying
the original request id immediately, registering nothing; otherwise register
and await as in `send_await`. -/
def send_to_pi (st : PiClientState) (action : String) (original_request_id : Option String)
    (connect_attempt_succeeds : Bool) (pi_request_id : String) (outcome : SendOutcome) :
    PiClientState × SendResult :=
  if ¬ st.is_connected_to_pi then
    let c := connect_to_pi st connect_attempt_succeeds
    if ¬ c.2 then
      (c.1, SendResult.localError
        { success := false, error := "Failed to connect to Pi server."
          request_id := original_request_id, action := action })
    else send_await c.1 action original_request_id pi_request_id outcome
  else send_await st action original_request_id pi_request_id outcome

/-- The externally visible response envelope of the middleware (and, with its
own action vocabulary, of the Pi server); the `data` payload is not
modelled. -/
structure MiddlewareResponse where
  action : String
  success : Bool
  error : Option String
  request_id : Option String
deriving DecidableEq, Repr

/-- The `START_LIVEVIEW_PI` branch of `websocket_endpoint_middleware`
(lines 392-399): when a live-view subscriber is already installed, reject
with a failure envelope and touch nothing; otherwise ask the Pi to start
live view and, on success, install the requesting websocket and its request
id as the subscriber. -/
def handle_start_liveview (st : PiClientState) (ws : Nat)
    (request_id_frontend : Option String) (connect_attempt_succeeds : Bool)
    (pi_request_id : String) (outcome : SendOutcome) :
    PiClientState × MiddlewareResponse :=
  match st.frontend_liveview_websocket with
  | some _ =>
    (st, { action := "START_LIVEVIEW_PI", success := false
           error := some "Liveview already active for another client."
           request_id := request_id_frontend })
  | none =>
    let r := send_to_pi st "start_liveview" request_id_frontend connect_attempt_succeeds
      pi_request_id outcome
    if sendResultSuccess r.2 then
      ({ r.1 with frontend_liveview_websocket := some ws
                  frontend_liveview_request_id := request_id_frontend },
       { action := "START_LIVEVIEW_PI", success := true, error := none
         request_id := request_id_frontend })
    else
      (r.1, { action := "START_LIVEVIEW_PI", success := false, error := sendResultError r.2
              request_id := request_id_frontend })

/-- The `WebSocketDisconnect` handler of `websocket_endpoint_middleware`
(lines 480-488): when the disconnecting frontend owns the live-view
subscription, clear it (a best-effort `stop_liveview` command is also issued
as a background task); when it owns the active photometric run, clear that
state. -/
def on_frontend_disconnect (st : PiClientState) (ws : Nat) : PiClientState :=
  let st1 :=
    if st.frontend_liveview_websocket = some ws then clear_frontend_liveview_state st else st
  if st1.active_photometric_frontend_ws = some ws then clear_active_photometric_state st1 else st1

/-! ## The photometric sequence engines

`run_photometric_sequence_mw` (middleware, lines 294-348) and
`GPhoto2API.run_photometric_sequence` (Pi server, lines 464-501).  Device
commands issued during a run are recorded in order in a `cmds` event list;
the success of each awaited device call is given by an oracle indexed by the
step number.  Delivery of progress messages to the frontend is modelled as
always succeeding (in the middleware the `try`/`finally` makes the cleanup
independent of it). -/

/-- A device command issued during a sequence run. -/
inductive DeviceCmd where
  | lightOn : String → DeviceCmd
  | lightOff : String → DeviceCmd
  | capture : String → DeviceCmd
deriving DecidableEq, Repr

/-- Outcomes of the awaited device calls of a run, per step index:
`lightOnOk i` is the success of the light-on command of step `i`,
`captureOk i` the success of the capture (including, for the middleware,
that the response actually carried image data), and `saveOk i` the success
of persisting the artifact.  Failures of the per-step light-off calls are
only logged by both engines and change nothing, so they need no oracle. -/
structure SeqOracle where
  lightOnOk : Nat → Bool
  captureOk : Nat → Bool
  saveOk : Nat → Bool

/-- The loop state of a sequence run: commands issued so far, artifacts
captured so far (step index and light name), the `sequence_failed` flag and
the recorded error message. -/
structure SeqState where
  cmds : List DeviceCmd
  captured : List (Nat × String)
  sequence_failed : Bool
  final_error_message : String
deriving DecidableEq, Repr

/-- The per-step loop of `run_photometric_sequence_mw` (lines 313-342):
light on (failure records the error and breaks immediately); capture and
persist (failure records the error but still reaches this step's light-off);
light off for the step's light (always attempted here, failure only
logged); break when failed, else continue. -/
def mw_sequence_loop (o : SeqOracle) : List (Nat × String) → SeqState → SeqState
  | [], s => s
  | (idx, light) :: rest, s =>
    let s1 := { s with cmds := s.cmds ++ [DeviceCmd.lightOn light] }
    if ¬ o.lightOnOk idx then
      { s1 with sequence_failed := true
                final_error_message := "Failed to turn ON light " ++ light }
    else
      let s2 := { s1 with cmds := s1.cmds ++ [DeviceCmd.capture light] }
      let s3 :=
        if ¬ o.captureOk idx then
          { s2 with sequence_failed := true
                    final_error_message := "Pi failed to capture/send image for light " ++ light }
        else if ¬ o.saveOk idx then
          { s2 with sequence_failed := true
                    final_error_message := "Error saving image for light " ++ light }
        else { s2 with captured := s2.captured ++ [(idx, light)] }
      let s4 := { s3 with cmds := s3.cmds ++ [DeviceCmd.lightOff light] }
      if s4.sequence_failed then s4
      else mw_sequence_loop o rest s4

/-- The final result a sequence run emits to its caller (middleware
lines 346-347, Pi server lines 499-500): the full ordered list of device
commands issued before the final response is sent, the success flag
(`Completed` vs `Failed`), the artifact count and list, and the error
detail when failed. -/
structure SeqFinal where
  cmds : List DeviceCmd
  success : Bool
  image_count : Nat
  images_captured : List (Nat × String)
  error : Option String
deriving DecidableEq, Repr

/-- `run_photometric_sequence_mw` (lines 294-348) after the conflict check:
run the step loop over the enumerated light sequence, then — in the
`finally` block, whether the loop completed or broke early — send light-off
for every light of the full configured sequence, and emit the final result.
The conflict-rejection path (another run active, lines 297-300) never
creates a run and is outside this definition. -/
def run_photometric_sequence_mw (o : SeqOracle) (light_sequence : List String) : SeqFinal :=
  let s0 : SeqState :=
    { cmds := [], captured := [], sequence_failed := false
      final_error_message := "Photometric sequence completed with errors." }
  let s := mw_sequence_loop o light_sequence.enum s0
  { cmds := s.cmds ++ light_sequence.map DeviceCmd.lightOff
    success := !s.sequence_failed
    image_count := s.captured.length
    images_captured := s.captured
    error := if s.sequence_failed then some s.final_error_message else none }

/-- `LIGHT_PINS.keys()` of the Pi server (lines 47-51): its configured light
universe. -/
def LIGHT_PINS : List String :=
  ["lights_top", "light_front", "light_front_left", "light_left", "light_rear_left",
   "light_rear", "light_rear_right", "light_right", "light_front_right"]

/-- The per-step loop of the Pi server's `run_photometric_sequence`
(lines 475-497): an unknown light name fails the run before any command;
light on (failure breaks); capture for the set followed unconditionally by
this step's light-off (line 490 runs before the capture result is checked);
capture failure breaks, success appends the artifact. -/
def pi_sequence_loop (o : SeqOracle) : List (Nat × String) → SeqState → SeqState
  | [], s => s
  | (idx, light) :: rest, s =>
    if light ∉ LIGHT_PINS then
      { s with sequence_failed := true
               final_error_message := "Invalid light name " ++ light }
    else
      let s1 := { s with cmds := s.cmds ++ [DeviceCmd.lightOn light] }
      if ¬ o.lightOnOk idx then
        { s1 with sequence_failed := true
                  final_error_message := "Failed to turn ON light: " ++ light }
      else
        let s2 := { s1 with cmds := s1.cmds ++ [DeviceCmd.capture light, DeviceCmd.lightOff light] }
        if ¬ o.captureOk idx then
          { s2 with sequence_failed := true
                    final_error_message := "Capture failed for light: " ++ light }
        else pi_sequence_loop o rest { s2 with captured := s2.captured ++ [(idx, light)] }

/-- `GPhoto2API.run_photometric_sequence` (lines 464-501) after its guard
checks: reset every configured light to off (line 473), run the step loop,
then send light-off for every light in `LIGHT_PINS` (line 498) before
emitting the final result (line 500). -/
def run_photometric_sequence (o : SeqOracle) (light_sequence : List String) : SeqFinal :=
  let s0 : SeqState :=
    { cmds := LIGHT_PINS.map DeviceCmd.lightOff, captured := []
      sequence_failed := false, final_error_message := "" }
  let s := pi_sequence_loop o light_sequence.enum s0
  { cmds := s.cmds ++ LIGHT_PINS.map DeviceCmd.lightOff
    success := !s.sequence_failed
    image_count := s.captured.length
    images_captured := s.captured
    error := if s.sequence_failed then some s.final_error_message else none }

/-- Oracle under which every device call succeeds. -/
def allOkOracle : SeqOracle :=
  { lightOnOk := fun _ => true, captureOk := fun _ => true, saveOk := fun _ => true }

/-- Oracle under which exactly the capture of step 1 (the second light)
fails and every other device call succeeds. -/
def captureFailsAtStepOne : SeqOracle :=
  { lightOnOk := fun _ => true, captureOk := fun i => i == 0, saveOk := fun _ => true }

/-! ## The per-message dispatch of the two websocket endpoints

`websocket_endpoint_middleware` (middleware, lines 358-479) and
`ConnectionManager.handle_message` (Pi server, lines 656-752).  An inbound
text message is abstracted by which of the three validation stages it
passes: JSON decoding to an object (`valid_json`), structural validation of
the request model — known action, well-typed fields — (`struct_valid`), and
per-action payload validation (`payload_valid`), together with the `action`
and `request_id` fields present in the raw decoded JSON.  The functions
return the list of response envelopes sent back on the connection for that
message; per-action response data and error texts are abstracted, and for
the middleware's photometric action the one envelope is the final result
the spawned sequence task sends with the same request id. -/

/-- An inbound frontend message, abstracted to its validation fate and the
raw `action` / `request_id` fields of the decoded JSON object. -/
structure FrontendMsg where
  valid_json : Bool
  raw_action : Option String
  raw_request_id : Option String
  struct_valid : Bool
  payload_valid : Bool
deriving DecidableEq, Repr

/-- One iteration of `websocket_endpoint_middleware` (lines 358-479).
Invalid JSON (line 475) is answered with a bare error object carrying no
action and no request id.  A message failing `MiddlewareRequest` validation
(lines 472-474) is answered with the default `PING_MIDDLEWARE` action and
with `request_id_frontend`, which at that point is still `None` — the local
is only assigned from the parsed request (line 365), after validation, so
the raw input's id is not used.  After successful parsing, every path
answers with the parsed request's id. -/
def middleware_handle (m : FrontendMsg) (device_success : Bool) : List MiddlewareResponse :=
  if ¬ m.valid_json then
    [{ action := "", success := false, error := some "Invalid JSON format.", request_id := none }]
  else if ¬ m.struct_valid then
    [{ action := "PING_MIDDLEWARE", success := false, error := some "Invalid payload"
       request_id := none }]
  else if ¬ m.payload_valid then
    [{ action := m.raw_action.getD "", success := false, error := some "Invalid payload"
       request_id := m.raw_request_id }]
  else
    [{ action := m.raw_action.getD "", success := device_success
       error := if device_success then none else some "Pi error"
       request_id := m.raw_request_id }]

/-- One call of `ConnectionManager.handle_message` (lines 656-752).  Here
`req_id` and `action_str` are read from the raw decoded JSON (line 659)
before `WebSocketRequest` validation, so a message failing structural
validation is still answered with the raw input's request id (via the
generic exception handler, line 752); only undecodable JSON is answered
with no id (line 751, `req_id` never assigned). -/
def pi_handle_message (m : FrontendMsg) (device_success : Bool) : List MiddlewareResponse :=
  if ¬ m.valid_json then
    [{ action := "unknown_action", success := false, error := some "Invalid JSON."
       request_id := none }]
  else if ¬ m.struct_valid then
    [{ action := m.raw_action.getD "unknown_action", success := false
       error := some "Server error", request_id := m.raw_request_id }]
  else if ¬ m.payload_valid then
    [{ action := m.raw_action.getD "unknown_action", success := false
       error := some "Invalid payload", request_id := m.raw_request_id }]
  else
    [{ action := m.raw_action.getD "unknown_action", success := device_success
       error := if device_success then none else some "error"
       request_id := m.raw_request_id }]

/-! ## Concrete instances used by witnesses and counterexamples -/

/-- Oracle under which the light-on command of step 0 fails and every other
device call succeeds (so every light after the first is never reached). -/
def lightOnFailsAtStepZero : SeqOracle :=
  { lightOnOk := fun i => !(i == 0), captureOk := fun _ => true, saveOk := fun _ => true }

/-- A syntactically valid JSON object whose `action` is not in the
middleware's action vocabulary, carrying a request id: it fails
`MiddlewareRequest` structural validation. -/
def bogusActionMsg : FrontendMsg :=
  { valid_json := true, raw_action := some "BOGUS_ACTION", raw_request_id := some "r1"
    struct_valid := false, payload_valid := true }

/-- A concrete connected client state with one pending request and a
live-view subscriber installed. -/
def witnessState : PiClientState :=
  { is_connected_to_pi := true, is_connecting_to_pi := false
    pi_command_responses := ["pi_mw_req_1"], resolved := [], listener_log := []
    frontend_liveview_websocket := some 7, frontend_liveview_request_id := some "lv1"
    active_photometric_frontend_ws := none, active_photometric_request_id_frontend := none
    active_photometric_set_folder_mw := none, active_photometric_captured_images_mw := []
    connect_attempts := 0 }

/-- `witnessState` with the downstream link down and no subscriber. -/
def disconnectedState : PiClientState :=
  { witnessState with is_connected_to_pi := false
                      frontend_liveview_websocket := none
                      frontend_liveview_request_id := none }

end GPhotoWS

/-! ## Theorems -/

namespace GPhotoWS

/-- If `rid` is pending, `resolve` pops it and completes its future with the
message. -/
theorem resolve_mem (st : PiClientState) (rid : String) (m : PiMessage)
    (h : rid ∈ st.pi_command_responses) :
    resolve st rid m =
      ({ st with
          pi_command_responses := st.pi_command_responses.filter (fun k => decide (k ≠ rid))
          resolved := st.resolved ++ [(rid, FutureOutcome.value m)] }, true) := by
  simp [resolve, h]

/-- If `rid` is not pending, `resolve` changes nothing and returns false. -/
theorem resolve_not_mem (st : PiClientState) (rid : String) (m : PiMessage)
    (h : rid ∉ st.pi_command_responses) :
    resolve st rid m = (st, false) := by
  simp [resolve, h]

/-- Removing a key from the pending map really removes it. -/
theorem not_mem_filter_ne (l : List String) (rid : String) :
    rid ∉ l.filter (fun k => decide (k ≠ rid)) := by
  simp [List.mem_filter]

/-- A read-loop message that is neither image data nor a live-view frame and
carries a truthy pending request id resolves that pending request. -/
theorem listen_dispatch_resolving (st : PiClientState) (act : Option String) (rid : String)
    (succ : Bool) (d : Bool) (sp : String)
    (ha : act ≠ some "IMAGE_DATA_FROM_PI") (hb : act ≠ some "liveview_frame")
    (hrid : rid ≠ "") (hmem : rid ∈ st.pi_command_responses) :
    listen_dispatch st { action := act, request_id := some rid, success := succ } d sp =
      ({ st with
          pi_command_responses := st.pi_command_responses.filter (fun k => decide (k ≠ rid))
          resolved := st.resolved ++ [(rid, FutureOutcome.value
            { action := act, request_id := some rid, success := succ })] }, true) := by
  unfold listen_dispatch
  rw [if_neg ha, if_neg hb]
  simp only []
  rw [if_neg hrid, resolve_mem st rid _ hmem]
  simp

/-- A read-loop message that is neither image data nor a live-view frame and
whose truthy request id is unknown to the pending map only goes to the
generic listener list. -/
theorem listen_dispatch_unknown (st : PiClientState) (act : Option String) (rid : String)
    (succ : Bool) (d : Bool) (sp : String)
    (ha : act ≠ some "IMAGE_DATA_FROM_PI") (hb : act ≠ some "liveview_frame")
    (hrid : rid ≠ "") (hmem : rid ∉ st.pi_command_responses) :
    listen_dispatch st { action := act, request_id := some rid, success := succ } d sp =
      ({ st with listener_log := st.listener_log ++
          [{ action := act, request_id := some rid, success := succ }] }, false) := by
  unfold listen_dispatch
  rw [if_neg ha, if_neg hb]
  simp only []
  rw [if_neg hrid, resolve_not_mem st rid _ hmem]
  simp

/-- Claim C1: for every photometric sequence run that terminates — whether
`Completed` or `Failed`, regardless of where it failed — by the time the
final result is emitted a light-off command has been issued for every light
of the run's configured light universe (the requested sequence in the
middleware engine, `LIGHT_PINS` in the Pi engine), including lights never
reached because of an early failure: the terminal cleanup loop appends a
light-off for the full universe to the issued-command list before the final
result. -/
theorem sequence_terminal_issues_light_off_for_universe
    (o : SeqOracle) (lights : List String) (l : String) :
    (l ∈ lights → DeviceCmd.lightOff l ∈ (run_photometric_sequence_mw o lights).cmds)
    ∧ (l ∈ LIGHT_PINS → DeviceCmd.lightOff l ∈ (run_photometric_sequence o lights).cmds) := by
  constructor
  · intro h
    unfold run_photometric_sequence_mw
    exact List.mem_append_right _ (List.mem_map_of_mem _ h)
  · intro h
    unfold run_photometric_sequence
    exact List.mem_append_right _ (List.mem_map_of_mem _ h)

/-- Witness for C1: with the very first light-on failing, the never-reached
light "C" still gets its light-off; and in the Pi engine a light not even
requested ("light_rear") gets its light-off from the `LIGHT_PINS`
universe. -/
theorem sequence_terminal_issues_light_off_for_universe_witness :
    DeviceCmd.lightOff "C" ∈
      (run_photometric_sequence_mw lightOnFailsAtStepZero ["A", "B", "C"]).cmds
    ∧ DeviceCmd.lightOff "light_rear" ∈
      (run_photometric_sequence allOkOracle ["light_front"]).cmds :=
  ⟨(sequence_terminal_issues_light_off_for_universe lightOnFailsAtStepZero
      ["A", "B", "C"] "C").1 (by decide),
   (sequence_terminal_issues_light_off_for_universe allOkOracle
      ["light_front"] "light_rear").2 (by decide)⟩

/-- Claim C2: a middleware run over the lights `["A", "B"]` in which the
capture for light "B" fails yields a final result with status `Failed`
(`success = false`), exactly the one artifact captured under "A", and
light-off commands issued for both "A" and "B"; the exact command list shows
that nothing runs after the failing step besides the per-step and terminal
light-off cleanup. -/
theorem sequence_capture_failure_at_second_light :
    run_photometric_sequence_mw captureFailsAtStepOne ["A", "B"] =
      { cmds := [DeviceCmd.lightOn "A", DeviceCmd.capture "A", DeviceCmd.lightOff "A",
                 DeviceCmd.lightOn "B", DeviceCmd.capture "B", DeviceCmd.lightOff "B",
                 DeviceCmd.lightOff "A", DeviceCmd.lightOff "B"]
        success := false
        image_count := 1
        images_captured := [(0, "A")]
        error := some "Pi failed to capture/send image for light B" } := by decide

/-- Counterexample to claim C3 as stated: a request that fails structural
validation (unknown action) while carrying the caller-supplied correlation
id "r1" in the raw input is answered by the middleware Gateway with a single
envelope whose correlation id is `none`, not "r1" — the id is not taken from
the raw input before validation. -/
theorem gateway_validation_drops_raw_request_id :
    bogusActionMsg.raw_request_id = some "r1"
    ∧ (middleware_handle bogusActionMsg true).map (fun e => e.request_id) = [none] := by decide

/-- Claim C3 as amended: both endpoints send exactly one response envelope
per inbound message; after successful structural validation the middleware
echoes the caller's id, but on structural-validation failure it answers with
a `none` id (and invalid JSON is answered with an id-less error object);
only the Pi server's `handle_message` takes the id from the raw input before
validation and so echoes it even on rejected requests. -/
theorem gateway_single_response_and_id (m : FrontendMsg) (device_success : Bool) :
    (middleware_handle m device_success).length = 1
    ∧ (pi_handle_message m device_success).length = 1
    ∧ (middleware_handle m device_success).map (fun e => e.request_id)
        = [cond (m.valid_json && m.struct_valid) m.raw_request_id none]
    ∧ (pi_handle_message m device_success).map (fun e => e.request_id)
        = [cond m.valid_json m.raw_request_id none] := by
  rcases m with ⟨vj, ra, ri, sv, pv⟩
  cases vj <;> cases sv <;> cases pv <;> cases device_success <;>
    simp [middleware_handle, pi_handle_message]

/-- Claim C4: a pending correlation id is resolved at most once.  The first
inbound response carrying the pending id completes that pending request
(dispatch returns true, the id leaves the pending map, the future holds the
response value); afterwards a `resolve` for the same id is a no-op returning
false, and a second inbound response with that id is only logged and handed
to the diagnostic listener list, never treated as fatal. -/
theorem resolve_at_most_once (st : PiClientState) (rid : String) (act act2 : Option String)
    (succ succ2 d1 d2 : Bool) (sp1 sp2 : String)
    (hpend : rid ∈ st.pi_command_responses) (hrid : rid ≠ "")
    (ha1 : act ≠ some "IMAGE_DATA_FROM_PI") (hb1 : act ≠ some "liveview_frame")
    (ha2 : act2 ≠ some "IMAGE_DATA_FROM_PI") (hb2 : act2 ≠ some "liveview_frame") :
    (listen_dispatch st { action := act, request_id := some rid, success := succ } d1 sp1).2
      = true
    ∧ rid ∉ (listen_dispatch st { action := act, request_id := some rid, success := succ }
        d1 sp1).1.pi_command_responses
    ∧ (rid, FutureOutcome.value { action := act, request_id := some rid, success := succ })
        ∈ (listen_dispatch st { action := act, request_id := some rid, success := succ }
            d1 sp1).1.resolved
    ∧ (∀ m2 : PiMessage,
        resolve (listen_dispatch st { action := act, request_id := some rid, success := succ }
          d1 sp1).1 rid m2
        = ((listen_dispatch st { action := act, request_id := some rid, success := succ }
            d1 sp1).1, false))
    ∧ listen_dispatch
        (listen_dispatch st { action := act, request_id := some rid, success := succ } d1 sp1).1
        { action := act2, request_id := some rid, success := succ2 } d2 sp2
      = ({ (listen_dispatch st { action := act, request_id := some rid, success := succ }
            d1 sp1).1 with
            listener_log := (listen_dispatch st
              { action := act, request_id := some rid, success := succ } d1 sp1).1.listener_log
              ++ [{ action := act2, request_id := some rid, success := succ2 }] }, false) := by
  rw [listen_dispatch_resolving st act rid succ d1 sp1 ha1 hb1 hrid hpend]
  refine ⟨rfl, not_mem_filter_ne _ _, by simp, fun m2 => ?_, ?_⟩
  · exact resolve_not_mem _ rid m2 (not_mem_filter_ne _ _)
  · exact listen_dispatch_unknown _ act2 rid succ2 d2 sp2 ha2 hb2 hrid (not_mem_filter_ne _ _)

/-- Witness for C4: in the concrete connected state, after the first
response for "pi_mw_req_1" has resolved it, a duplicate response only lands
in the listener log and returns false. -/
theorem resolve_at_most_once_witness :
    (listen_dispatch
      (listen_dispatch witnessState
        { action := some "get_cameras", request_id := some "pi_mw_req_1", success := true }
        true "p").1
      { action := some "get_cameras", request_id := some "pi_mw_req_1", success := true }
      true "p")
      = ({ (listen_dispatch witnessState
            { action := some "get_cameras", request_id := some "pi_mw_req_1", success := true }
            true "p").1 with
            listener_log := (listen_dispatch witnessState
              { action := some "get_cameras", request_id := some "pi_mw_req_1", success := true }
              true "p").1.listener_log
              ++ [{ action := some "get_cameras", request_id := some "pi_mw_req_1",
                    success := true }] }, false) :=
  (resolve_at_most_once witnessState "pi_mw_req_1" (some "get_cameras") (some "get_cameras")
    true true true true "p" "p" (by decide) (by decide) (by decide) (by decide) (by decide)
    (by decide)).2.2.2.2

/-- Claim C5: when the awaited response for a sent request does not arrive
within the timeout, `send_to_pi` returns a failure envelope whose error text
is tagged with the original action name and which carries the caller's
original request id, and the pending entry for the generated correlation id
is removed on expiry, so a later late `resolve` for that id finds no pending
request and is a no-op. -/
theorem send_timeout_removes_pending (st : PiClientState) (action : String)
    (orig : Option String) (cok : Bool) (newId : String)
    (h : st.is_connected_to_pi = true) :
    (send_to_pi st action orig cok newId SendOutcome.timeout).2
      = SendResult.localError
          { success := false, error := "Timeout for Pi action " ++ action ++ "."
            request_id := orig, action := action }
    ∧ newId ∉ (send_to_pi st action orig cok newId SendOutcome.timeout).1.pi_command_responses
    ∧ (∀ m : PiMessage,
        resolve (send_to_pi st action orig cok newId SendOutcome.timeout).1 newId m
        = ((send_to_pi st action orig cok newId SendOutcome.timeout).1, false)) := by
  have hs : send_to_pi st action orig cok newId SendOutcome.timeout
      = send_await st action orig newId SendOutcome.timeout := by
    unfold send_to_pi
    rw [if_neg (by simp [h])]
  rw [hs]
  unfold send_await
  refine ⟨rfl, not_mem_filter_ne _ _, fun m => ?_⟩
  exact resolve_not_mem _ newId m (not_mem_filter_ne _ _)

/-- Witness for C5: a concrete timed-out capture request gets the tagged
timeout envelope with the original frontend request id. -/
theorem send_timeout_removes_pending_witness :
    (send_to_pi witnessState "capture_image_data" (some "fr1") true "pi_mw_req_2"
      SendOutcome.timeout).2
      = SendResult.localError
          { success := false, error := "Timeout for Pi action capture_image_data."
            request_id := some "fr1", action := "capture_image_data" } :=
  (send_timeout_removes_pending witnessState "capture_image_data" (some "fr1") true
    "pi_mw_req_2" (by decide)).1

/-- Claim C6: `send_to_pi` invoked while the downstream link is disconnected
attempts `connect_to_pi` exactly once (the attempt counter increases by
one); when the link is still not connected it returns, within that one call
and without registering anything or waiting, a connection-failure envelope
carrying the original caller-supplied request id. -/
theorem send_disconnected_returns_connection_error (st : PiClientState) (action : String)
    (orig : Option String) (newId : String) (outcome : SendOutcome)
    (h1 : st.is_connected_to_pi = false) (h2 : st.is_connecting_to_pi = false) :
    (send_to_pi st action orig false newId outcome).2
      = SendResult.localError
          { success := false, error := "Failed to connect to Pi server."
            request_id := orig, action := action }
    ∧ (send_to_pi st action orig false newId outcome).1.pi_command_responses
        = st.pi_command_responses
    ∧ (send_to_pi st action orig false newId outcome).1.connect_attempts
        = st.connect_attempts + 1 := by
  simp [send_to_pi, connect_to_pi, h1, h2, clear_frontend_liveview_state,
    clear_active_photometric_state]

/-- Witness for C6: a concrete send on the disconnected state returns the
`ConnectionError` envelope with the caller's id. -/
theorem send_disconnected_returns_connection_error_witness :
    (send_to_pi disconnectedState "get_cameras" (some "fr2") false "pi_mw_req_3"
      SendOutcome.timeout).2
      = SendResult.localError
          { success := false, error := "Failed to connect to Pi server."
            request_id := some "fr2", action := "get_cameras" } :=
  (send_disconnected_returns_connection_error disconnectedState "get_cameras" (some "fr2")
    "pi_mw_req_3" SendOutcome.timeout (by decide) (by decide)).1

/-- Claim C7: when the downstream read loop terminates (connection lost),
every still-pending request is completed with a `ConnectionError` and the
pending map is emptied, so no caller blocks forever on the severed link; and
both capacity-one slots — the live-view stream subscriber (handle and
starting request id) and the active photometric sequence state — are
cleared. -/
theorem connection_lost_fails_all_and_clears_slots (st : PiClientState) (rid : String)
    (h : rid ∈ st.pi_command_responses) :
    (listen_finally st).pi_command_responses = []
    ∧ (listen_finally st).frontend_liveview_websocket = none
    ∧ (listen_finally st).frontend_liveview_request_id = none
    ∧ (listen_finally st).active_photometric_frontend_ws = none
    ∧ (listen_finally st).active_photometric_request_id_frontend = none
    ∧ (listen_finally st).active_photometric_set_folder_mw = none
    ∧ (rid, FutureOutcome.connError "Connection to Pi server lost.")
        ∈ (listen_finally st).resolved := by
  unfold listen_finally clear_active_photometric_state clear_frontend_liveview_state
  refine ⟨rfl, rfl, rfl, rfl, rfl, rfl, ?_⟩
  simp only []
  exact List.mem_append_right _ (List.mem_map_of_mem _ h)

/-- Witness for C7: the concrete pending request "pi_mw_req_1" is completed
with the `ConnectionError` when the link is lost. -/
theorem connection_lost_fails_all_and_clears_slots_witness :
    ("pi_mw_req_1", FutureOutcome.connError "Connection to Pi server lost.")
      ∈ (listen_finally witnessState).resolved :=
  (connection_lost_fails_all_and_clears_slots witnessState "pi_mw_req_1"
    (by decide)).2.2.2.2.2.2

/-- Claim C8: when a live-view subscriber is already installed, a second
start-stream request is answered with a failure envelope (success = false)
and the whole client state — in particular the existing subscriber's sink
handle and the correlation id that started the stream — is returned
unchanged. -/
theorem second_start_liveview_rejected (st : PiClientState) (s ws : Nat)
    (rid : Option String) (cok : Bool) (piId : String) (outcome : SendOutcome)
    (h : st.frontend_liveview_websocket = some s) :
    handle_start_liveview st ws rid cok piId outcome
      = (st, { action := "START_LIVEVIEW_PI", success := false
               error := some "Liveview already active for another client."
               request_id := rid }) := by
  unfold handle_start_liveview
  rw [h]

/-- Witness for C8: with subscriber 7 installed, a second start-liveview
request from websocket 9 is rejected and the state is untouched. -/
theorem second_start_liveview_rejected_witness :
    handle_start_liveview witnessState 9 (some "r9") true "pi_mw_req_4" SendOutcome.timeout
      = (witnessState,
         { action := "START_LIVEVIEW_PI", success := false
           error := some "Liveview already active for another client."
           request_id := some "r9" }) :=
  second_start_liveview_rejected witnessState 7 9 (some "r9") true "pi_mw_req_4"
    SendOutcome.timeout (by decide)

/-- Claim C9: after the connection owning the live-view subscription
disconnects, no subscriber is attached, and every subsequently routed frame
is a silent no-op — the state is returned unchanged (nothing is queued or
buffered; the state has no buffer) and nothing is delivered to any sink;
likewise a delivery failure to the attached sink detaches that subscriber
automatically. -/
theorem dropped_subscriber_frames_dropped (st : PiClientState) (ws : Nat) (m : PiMessage)
    (d : Bool) (h : st.frontend_liveview_websocket = some ws) :
    (on_frontend_disconnect st ws).frontend_liveview_websocket = none
    ∧ _forward_liveview_frame (on_frontend_disconnect st ws) m d
        = (on_frontend_disconnect st ws, none)
    ∧ (_forward_liveview_frame st m false).1.frontend_liveview_websocket = none
    ∧ (_forward_liveview_frame st m false).2 = none := by
  have hd : (on_frontend_disconnect st ws).frontend_liveview_websocket = none := by
    unfold on_frontend_disconnect
    rw [if_pos h]
    by_cases hp : (clear_frontend_liveview_state st).active_photometric_frontend_ws = some ws
    · rw [if_pos hp]; rfl
    · rw [if_neg hp]; rfl
  refine ⟨hd, ?_, ?_, ?_⟩
  · unfold _forward_liveview_frame
    rw [hd]
  · unfold _forward_liveview_frame
    rw [h]
    rfl
  · unfold _forward_liveview_frame
    rw [h]
    rfl

/-- Witness for C9: after websocket 7 (the owner) disconnects, no subscriber
is attached and routing a concrete frame is a silent no-op. -/
theorem dropped_subscriber_frames_dropped_witness :
    (on_frontend_disconnect witnessState 7).frontend_liveview_websocket = none
    ∧ _forward_liveview_frame (on_frontend_disconnect witnessState 7)
        { action := some "liveview_frame", request_id := none, success := true } true
        = (on_frontend_disconnect witnessState 7, none) :=
  ⟨(dropped_subscriber_frames_dropped witnessState 7
      { action := some "liveview_frame", request_id := none, success := true } true
      (by decide)).1,
   (dropped_subscriber_frames_dropped witnessState 7
      { action := some "liveview_frame", request_id := none, success := true } true
      (by decide)).2.1⟩

/-- Claim C10, failing input for the code bug: with working directory
"/srv", the request path "captures_evil/secret.jpg" is neither absolute nor
contains a ".." component, yet `GPhoto2API.get_image_data` accepts it — its
bare string-prefix check compares "/srv/captures_evil/secret.jpg" against
the base "/srv/captures" without a separator — and would read a file that
lies outside the configured captures base directory. -/
theorem get_image_data_prefix_check_escapes_base :
    (abspathL "/srv".toList CAPTURES_BASE_DIR.toList).asString = "/srv/captures"
    ∧ get_image_data_resolved "/srv" "captures_evil/secret.jpg"
        = some "/srv/captures_evil/secret.jpg"
    ∧ withinDir "/srv/captures" "/srv/captures_evil/secret.jpg" = false := by decide

end GPhotoWS
